import Mathlib

/-!
Shallow embedding of the Xiaomi AirFresh Home Assistant integration
(files custom_components/xiaomi_airfresh/fan.py and xiaomi_airfresh/fan.py).
Python values flowing through the integration are modelled by PropValue
(scalars, with pyNone for Python None) and PyValue (a scalar or a flat list),
exceptions by Except / explicit outcome types, and the miio transport by an
explicit function argument.
-/

/-- A scalar Python value as it appears in device property lists. -/
inductive PropValue where
  | pyBool (b : Bool)
  | pyInt (n : Int)
  | pyStr (s : String)
  | pyNone
deriving DecidableEq, Repr

/-- A Python value as passed to / returned from device.send: a scalar or a flat list. -/
inductive PyValue where
  | scalar (v : PropValue)
  | list (vs : List PropValue)
deriving DecidableEq, Repr

/-- SUCCESS = ['ok'], the transport success sentinel. -/
def SUCCESS : PyValue := .list [.pyStr "ok"]

/-- Supported modes of the device (enum OperationMode in both fan.py files). -/
inductive OperationMode where
  | Off
  | Auto
  | Sleep
  | Favourite
deriving DecidableEq, Repr

/-- The .value of each enum member (its lowercase wire token). -/
def OperationMode.value : OperationMode → String
  | .Off => "off"
  | .Auto => "auto"
  | .Sleep => "sleep"
  | .Favourite => "favourite"

/-- Lookup by member name, OperationMode[name]; none models the KeyError. -/
def OperationMode.ofName : String → Option OperationMode
  | "Off" => some .Off
  | "Auto" => some .Auto
  | "Sleep" => some .Sleep
  | "Favourite" => some .Favourite
  | _ => none

/-- Lookup by wire value, OperationMode(token); none models the ValueError. -/
def OperationMode.ofWire : String → Option OperationMode
  | "off" => some .Off
  | "auto" => some .Auto
  | "sleep" => some .Sleep
  | "favourite" => some .Favourite
  | _ => none

/-- Python str.title(): uppercase a character after a non-alphabetic position,
lowercase the rest. -/
def strTitle (s : String) : String :=
  String.mk ((s.data.foldl
    (fun acc c =>
      (acc.1 ++ [if acc.2 then c.toLower else c.toUpper], c.isAlpha))
    ([], false)).1)

/-- Lookup in an association list read as a Python dict (later bindings win),
with the defaultdict default None for absent keys. -/
def dictGetD (d : List (String × PropValue)) (k : String) : PropValue :=
  match d.reverse.find? (fun p => p.1 = k) with
  | some p => p.2
  | none => .pyNone

/-- dict assignment d[k] = v: replace the binding when the key exists, else append. -/
def dictInsert (d : List (String × PropValue)) (k : String) (v : PropValue) :
    List (String × PropValue) :=
  if d.any (fun p => p.1 = k) then
    d.map (fun p => if p.1 = k then (k, v) else p)
  else d ++ [(k, v)]

/-- dict.update(upds): fold the assignments left to right. -/
def dictUpdate (d upds : List (String × PropValue)) : List (String × PropValue) :=
  upds.foldl (fun acc p => dictInsert acc p.1 p.2) d

/-- AirFreshDeviceStatus / AirFreshDStatus: container for status reports,
holding data = defaultdict(lambda: None, zip(properties, values)). -/
structure AirFreshDeviceStatus where
  data : List (String × PropValue)
deriving DecidableEq, Repr

/-- self.data[key] (defaultdict: absent keys read as None). -/
def AirFreshDeviceStatus.get (st : AirFreshDeviceStatus) (k : String) : PropValue :=
  dictGetD st.data k

/-- The power property: self.data["power"]. -/
def AirFreshDeviceStatus.power (st : AirFreshDeviceStatus) : PropValue :=
  st.get "power"

/-- The is_on property: self.power == True. -/
def AirFreshDeviceStatus.is_on (st : AirFreshDeviceStatus) : Bool :=
  decide (st.power = .pyBool true)

/-- The mode property: OperationMode(self.data["mode"]); the error case models
the ValueError raised when the stored value is not a valid wire token. -/
def AirFreshDeviceStatus.mode (st : AirFreshDeviceStatus) :
    Except String OperationMode :=
  match st.get "mode" with
  | .pyStr w =>
    match OperationMode.ofWire w with
    | some m => .ok m
    | none => .error "ValueError"
  | _ => .error "ValueError"

/-- get_status splits the property list into chunks of at most 4 names,
mirroring the loop: values.extend(send("get_prop", props[:4])); props = props[4:]. -/
def pollChunks : List String → List (List String)
  | [] => []
  | [a] => [[a]]
  | [a, b] => [[a, b]]
  | [a, b, c] => [[a, b, c]]
  | a :: b :: c :: d :: rest => [a, b, c, d] :: pollChunks rest

/-- Issue one get_prop call per chunk and concatenate the results in call
order; the first failing call aborts with the DeviceException. -/
def runChunks (send : List String → Except String (List PropValue)) :
    List (List String) → Except String (List PropValue)
  | [] => .ok []
  | c :: cs =>
    match send c with
    | .error e => .error e
    | .ok vs =>
      match runChunks send cs with
      | .error e => .error e
      | .ok rest => .ok (vs ++ rest)

/-- get_status: chunked polling, count-mismatch check (a debug log only, not
modelled), then AirFreshDeviceStatus(defaultdict(lambda: None, zip(properties, values))). -/
def get_status (send : List String → Except String (List PropValue))
    (properties : List String) : Except String AirFreshDeviceStatus :=
  match runChunks send (pollChunks properties) with
  | .error e => .error e
  | .ok values => .ok ⟨List.zip properties values⟩

/-- The 14 property names polled by XiaomiAirFreshDevice.get_status. -/
def properties_airfresh : List String :=
  ["power", "pm25", "co2", "temperature_outside", "favourite_speed",
   "filter_rate", "filter_day", "control_speed", "ptc_on", "ptc_status",
   "child_lock", "sound", "display", "mode"]

/-- The 4 property names polled by XiaomiAirFreshD.get_status. -/
def properties_d : List String := ["power", "pm25", "co2", "mode"]

/-- AVAILABLE_ATTRIBUTES_AIRFRESH: state-attribute key to status property name. -/
def AVAILABLE_ATTRIBUTES_AIRFRESH : List (String × String) :=
  [("pm25", "pm25"), ("co2", "co2"), ("mode", "mode"),
   ("temperature_outside", "temperature_outside"),
   ("favourite_speed", "favourite_speed"), ("filter_rate", "filter_rate"),
   ("filter_day", "filter_day"), ("control_speed", "control_speed"),
   ("ptc_on", "ptc_on"), ("ptc_status", "ptc_status"),
   ("child_lock", "child_lock"), ("sound", "sound"), ("display", "display")]

/-- AVAILABLE_ATTRIBUTES_AIRFRESH of the smaller variant. -/
def AVAILABLE_ATTRIBUTES_D : List (String × String) :=
  [("pm25", "pm25"), ("co2", "co2"), ("mode", "mode")]

/-- The mutable entity fields of XiaomiAirFreshDevice / XiaomiAirFreshD:
_available, _state, _state_attrs, _skip_update. -/
structure DeviceState where
  available : Bool
  state : Option Bool
  state_attrs : List (String × PropValue)
  skip_update : Bool
deriving DecidableEq, Repr

/-- Outcome of one device.send call: a returned value or a raised DeviceException. -/
inductive SendResult where
  | ok (v : PyValue)
  | exn (e : String)
deriving DecidableEq, Repr

/-- A command transport: method name and positional parameter to a send outcome. -/
def Transport : Type := String → PyValue → SendResult

/-- A wire-level command as issued through device.send. -/
structure WireCmd where
  method : String
  params : PyValue
deriving DecidableEq, Repr

/-- _try_command: call device.send, return result == SUCCESS; a DeviceException
is caught, logged with the caller-supplied template (the log component records
(mask_error, exception)), sets _available = False and yields False. The
function is total: no exception escapes. -/
def try_command (mask_error : String) (s : DeviceState) (tr : Transport)
    (method : String) (params : PyValue) :
    DeviceState × Bool × List (String × String) :=
  match tr method params with
  | .ok result => (s, decide (result = SUCCESS), [])
  | .exn exc => ({ s with available := false }, false, [(mask_error, exc)])

/-- send_raw_cmd: log the command (not modelled) and delegate to _try_command;
also records the single wire command issued. -/
def send_raw_cmd (mask_error : String) (s : DeviceState) (tr : Transport)
    (command : String) (parameters : PyValue) :
    DeviceState × Bool × List WireCmd :=
  let r := try_command mask_error s tr command parameters
  (r.1, r.2.1, [⟨command, parameters⟩])

/-- SUPPORT_SET_SPEED, a nonzero feature-flag constant imported from the host
framework (homeassistant.components.fan). -/
def SUPPORT_SET_SPEED : Nat := 1

/-- supported_features of both entity classes: SUPPORT_SET_SPEED. -/
def supported_features : Nat := SUPPORT_SET_SPEED

/-- XiaomiAirFreshD.async_turn_off: send set_power([False]); on success set the
optimistic state _state = False and arm _skip_update. -/
def async_turn_off_D (s : DeviceState) (tr : Transport) :
    DeviceState × List WireCmd :=
  let r := send_raw_cmd "Turning the miio device off failed." s tr
    "set_power" (.list [.pyBool false])
  (if r.2.1 then { r.1 with state := some false, skip_update := true }
   else r.1, r.2.2)

/-- XiaomiAirFreshD.async_set_speed: guard on supported_features, look up
OperationMode[speed.title()] (error = KeyError), route 'off' through
async_turn_off, otherwise send set_mode with the bare wire token. -/
def async_set_speed_D (s : DeviceState) (tr : Transport) (speed : String) :
    Except String (DeviceState × List WireCmd) :=
  if supported_features &&& SUPPORT_SET_SPEED = 0 then .ok (s, [])
  else
    match OperationMode.ofName (strTitle speed) with
    | none => .error "KeyError"
    | some m =>
      if m.value = "off" then .ok (async_turn_off_D s tr)
      else
        let r := send_raw_cmd "Setting operation mode of the miio device failed."
          s tr "set_mode" (.scalar (.pyStr m.value))
        .ok (r.1, r.2.2)

/-- XiaomiAirFreshD.async_turn_on via the power branch: send set_power([True]);
on success set _state = True and arm _skip_update. -/
def turn_on_power_D (s : DeviceState) (tr : Transport) :
    DeviceState × List WireCmd :=
  let r := send_raw_cmd "Turning the miio device on failed." s tr
    "set_power" (.list [.pyBool true])
  (if r.2.1 then { r.1 with state := some true, skip_update := true }
   else r.1, r.2.2)

/-- XiaomiAirFreshD.async_turn_on: a truthy speed routes through
async_set_speed, whose Python return value is None (falsy), so the trailing
optimistic-update block is skipped on that branch; a falsy speed (None or the
empty string) sends set_power([True]) and applies the optimistic update when
the command succeeded. -/
def async_turn_on_D (s : DeviceState) (tr : Transport) (speed : Option String) :
    Except String (DeviceState × List WireCmd) :=
  match speed with
  | some sp =>
    if sp = "" then .ok (turn_on_power_D s tr)
    else async_set_speed_D s tr sp
  | none => .ok (turn_on_power_D s tr)

/-- XiaomiAirFreshDevice.async_turn_off: send set_power([False]); no optimistic
update in this variant. -/
def async_turn_off_Device (s : DeviceState) (tr : Transport) :
    DeviceState × List WireCmd :=
  let r := send_raw_cmd "Turning the miio device off failed." s tr
    "set_power" (.list [.pyBool false])
  (r.1, r.2.2)

/-- XiaomiAirFreshDevice.async_set_speed: same dispatch as the D variant (its
guard reads SUPPORT_SET_SPEED == 0 directly), routed to the Device turn-off. -/
def async_set_speed_Device (s : DeviceState) (tr : Transport) (speed : String) :
    Except String (DeviceState × List WireCmd) :=
  if SUPPORT_SET_SPEED = 0 then .ok (s, [])
  else
    match OperationMode.ofName (strTitle speed) with
    | none => .error "KeyError"
    | some m =>
      if m.value = "off" then .ok (async_turn_off_Device s tr)
      else
        let r := send_raw_cmd "Setting operation mode of the miio device failed."
          s tr "set_mode" (.scalar (.pyStr m.value))
        .ok (r.1, r.2.2)

/-- XiaomiAirFreshDevice.async_turn_on via the power branch: send
set_power([True]); no optimistic update in this variant. -/
def turn_on_power_Device (s : DeviceState) (tr : Transport) :
    DeviceState × List WireCmd :=
  let r := send_raw_cmd "Turning the miio device on failed." s tr
    "set_power" (.list [.pyBool true])
  (r.1, r.2.2)

/-- XiaomiAirFreshDevice.async_turn_on: a truthy speed routes through
async_set_speed, else send set_power([True]); this variant never sets the
optimistic state or the skip flag. -/
def async_turn_on_Device (s : DeviceState) (tr : Transport)
    (speed : Option String) : Except String (DeviceState × List WireCmd) :=
  match speed with
  | some sp =>
    if sp = "" then .ok (turn_on_power_Device s tr)
    else async_set_speed_Device s tr sp
  | none => .ok (turn_on_power_Device s tr)

/-- _extract_value_from_attribute(state, attribute): getattr reads the named
status property; of the polled attributes only mode is enum-valued, where the
mode property may raise ValueError and the Enum branch returns value.value. -/
def extract_value_from_attribute (st : AirFreshDeviceStatus)
    (attrName : String) : Except String PropValue :=
  if attrName = "mode" then
    (st.mode).map (fun m => .pyStr m.value)
  else .ok (st.get attrName)

/-- The dict comprehension of async_update: extract every available attribute,
failing with the first uncaught exception. -/
def extractAll (st : AirFreshDeviceStatus) :
    List (String × String) → Except String (List (String × PropValue))
  | [] => .ok []
  | (k, a) :: rest =>
    match extract_value_from_attribute st a with
    | .error e => .error e
    | .ok v =>
      match extractAll st rest with
      | .error e => .error e
      | .ok vs => .ok ((k, v) :: vs)

/-- Outcome of async_update: a normal return, or an uncaught exception escaping
with the fields as mutated up to the raise point. -/
inductive UpdateOutcome where
  | normal (s : DeviceState)
  | raised (e : String) (s : DeviceState)
deriving DecidableEq, Repr

/-- The entity fields after an async_update outcome. -/
def UpdateOutcome.state : UpdateOutcome → DeviceState
  | .normal s => s
  | .raised _ s => s

/-- async_update of both entity classes, parameterised by their property list
and available-attribute table: when _skip_update is armed, clear it and return;
otherwise poll get_status — a DeviceException is caught and clears _available —
then set _available = True, _state = state.is_on, and merge the extracted
attributes into _state_attrs; a ValueError escaping the dict comprehension
leaves _state_attrs untouched but keeps the two earlier field writes. -/
def async_update (send : List String → Except String (List PropValue))
    (properties : List String) (availAttrs : List (String × String))
    (s : DeviceState) : UpdateOutcome :=
  if s.skip_update then .normal { s with skip_update := false }
  else
    match get_status send properties with
    | .error _ => .normal { s with available := false }
    | .ok st =>
      let s1 := { s with available := true, state := some st.is_on }
      match extractAll st availAttrs with
      | .error e => .raised e s1
      | .ok upds => .normal { s1 with state_attrs := dictUpdate s.state_attrs upds }

theorem pollChunks_length (props : List String) :
    (pollChunks props).length = (props.length + 3) / 4 := by
  induction props using pollChunks.induct <;> (simp [pollChunks, *]; try omega)

theorem pollChunks_sizes (props : List String) :
    (pollChunks props).all (fun c => decide (c.length ≤ 4)) = true := by
  induction props using pollChunks.induct <;> simp [pollChunks, *]

theorem pollChunks_flatten (props : List String) :
    (pollChunks props).flatten = props := by
  induction props using pollChunks.induct <;> simp [pollChunks, *]

theorem runChunks_lift (send : List String → List PropValue)
    (cs : List (List String)) :
    runChunks (fun c => Except.ok (send c)) cs
      = Except.ok ((cs.map send).flatten) := by
  induction cs with
  | nil => rfl
  | cons c cs ih => simp [runChunks, ih]

/-- C1: For every list of N property names, get_status issues exactly
ceil(N/4) get_prop calls (one per chunk of pollChunks), each chunk carries at
most 4 names, the chunks concatenate back to the original list in order, the
returned value lists are concatenated in call order and zipped positionally
with the names; and on the 4-name list [power, pm25, co2, mode] with reply
[true, 12, 430, "auto"] the snapshot has is_on = true, pm25 = 12, co2 = 430
and mode = Auto. -/
theorem get_status_chunks_and_zip (props : List String)
    (send : List String → List PropValue) :
    (pollChunks props).length = (props.length + 3) / 4
    ∧ (pollChunks props).all (fun c => decide (c.length ≤ 4)) = true
    ∧ (pollChunks props).flatten = props
    ∧ get_status (fun c => Except.ok (send c)) props
        = Except.ok ⟨List.zip props ((pollChunks props).map send).flatten⟩
    ∧ get_status (fun _ => Except.ok
          [.pyBool true, .pyInt 12, .pyInt 430, .pyStr "auto"]) properties_d
        = Except.ok ⟨[("power", .pyBool true), ("pm25", .pyInt 12),
                      ("co2", .pyInt 430), ("mode", .pyStr "auto")]⟩
    ∧ (AirFreshDeviceStatus.mk [("power", .pyBool true), ("pm25", .pyInt 12),
        ("co2", .pyInt 430), ("mode", .pyStr "auto")]).is_on = true
    ∧ (AirFreshDeviceStatus.mk [("power", .pyBool true), ("pm25", .pyInt 12),
        ("co2", .pyInt 430), ("mode", .pyStr "auto")]).get "pm25" = .pyInt 12
    ∧ (AirFreshDeviceStatus.mk [("power", .pyBool true), ("pm25", .pyInt 12),
        ("co2", .pyInt 430), ("mode", .pyStr "auto")]).get "co2" = .pyInt 430
    ∧ (AirFreshDeviceStatus.mk [("power", .pyBool true), ("pm25", .pyInt 12),
        ("co2", .pyInt 430), ("mode", .pyStr "auto")]).mode
        = Except.ok OperationMode.Auto := by
  refine ⟨pollChunks_length props, pollChunks_sizes props,
    pollChunks_flatten props, ?_, by rfl, by decide, by decide, by decide,
    by rfl⟩
  simp [get_status, runChunks_lift]

/-- C2: _try_command returns true exactly when the transport result equals the
single-element list ["ok"]; any other returned value yields false, and the
function returns normally. -/
theorem try_command_success_iff (mask : String) (s : DeviceState)
    (tr : Transport) (method : String) (params : PyValue) (v : PyValue)
    (h : tr method params = SendResult.ok v) :
    ((try_command mask s tr method params).2.1 = true ↔ v = SUCCESS) := by
  simp [try_command, h]

/-- Witness for try_command_success_iff at a concrete ok(["ok"]) transport. -/
theorem try_command_success_iff_witness :
    (try_command "m" ⟨false, none, [], false⟩
        (fun _ _ => SendResult.ok (.list [.pyStr "ok"])) "set_power"
        (.list [.pyBool true])).2.1 = true
      ↔ (PyValue.list [.pyStr "ok"]) = SUCCESS :=
  try_command_success_iff "m" ⟨false, none, [], false⟩
    (fun _ _ => SendResult.ok (.list [.pyStr "ok"])) "set_power"
    (.list [.pyBool true]) (.list [.pyStr "ok"]) rfl

/-- C3: when the skip flag is not armed and the poll raises a
DeviceException, async_update returns normally (outcome .normal) with
availability cleared and the power state, the attributes and the skip flag
exactly as before. -/
theorem async_update_transport_failure
    (send : List String → Except String (List PropValue))
    (props : List String) (attrs : List (String × String)) (s : DeviceState)
    (e : String) (hskip : s.skip_update = false)
    (herr : get_status send props = Except.error e) :
    async_update send props attrs s
      = UpdateOutcome.normal { s with available := false } := by
  simp [async_update, hskip, herr]

/-- Witness for async_update_transport_failure at an always-raising transport. -/
theorem async_update_transport_failure_witness :
    async_update (fun _ => Except.error "DeviceException") properties_d
        AVAILABLE_ATTRIBUTES_D ⟨true, some true, [], false⟩
      = UpdateOutcome.normal ⟨false, some true, [], false⟩ :=
  async_update_transport_failure (fun _ => Except.error "DeviceException")
    properties_d AVAILABLE_ATTRIBUTES_D ⟨true, some true, [], false⟩
    "DeviceException" rfl rfl

/-- C4: when the transport raises, _try_command catches the exception, logs it
with the caller-supplied template, clears availability and returns false; the
returned triple shows the exception is not propagated. -/
theorem try_command_exception (mask : String) (s : DeviceState)
    (tr : Transport) (method : String) (params : PyValue) (e : String)
    (h : tr method params = SendResult.exn e) :
    try_command mask s tr method params
      = ({ s with available := false }, false, [(mask, e)]) := by
  simp [try_command, h]

/-- Witness for try_command_exception at a concrete raising transport. -/
theorem try_command_exception_witness :
    try_command "Turning the miio device on failed."
        ⟨true, some true, [], false⟩ (fun _ _ => SendResult.exn "timeout")
        "set_power" (.list [.pyBool true])
      = (⟨false, some true, [], false⟩, false,
         [("Turning the miio device on failed.", "timeout")]) :=
  try_command_exception "Turning the miio device on failed."
    ⟨true, some true, [], false⟩ (fun _ _ => SendResult.exn "timeout")
    "set_power" (.list [.pyBool true]) "timeout" rfl

/-- C10: a transport call that completes normally with any result other than
["ok"] makes _try_command return false with the entity state (availability,
power, attributes, skip flag) exactly unchanged and nothing logged at error
level. -/
theorem try_command_nonsentinel_noop (mask : String) (s : DeviceState)
    (tr : Transport) (method : String) (params : PyValue) (v : PyValue)
    (hok : tr method params = SendResult.ok v) (hne : v ≠ SUCCESS) :
    try_command mask s tr method params = (s, false, []) := by
  simp [try_command, hok, hne]

/-- Witness for try_command_nonsentinel_noop at a concrete ["error"] reply. -/
theorem try_command_nonsentinel_noop_witness :
    try_command "m" ⟨true, some false, [], true⟩
        (fun _ _ => SendResult.ok (.list [.pyStr "error"])) "set_power"
        (.list [.pyBool false])
      = (⟨true, some false, [], true⟩, false, []) :=
  try_command_nonsentinel_noop "m" ⟨true, some false, [], true⟩
    (fun _ _ => SendResult.ok (.list [.pyStr "error"])) "set_power"
    (.list [.pyBool false]) (.list [.pyStr "error"]) rfl (by decide)

/-- C6: turning on with speed "Favourite" issues exactly the single wire
command set_mode with the bare value "favourite" (so never set_power), in both
entity variants; the command trace of the whole call is that one element. -/
theorem turn_on_favourite_issues_set_mode (s : DeviceState) (tr : Transport) :
    Except.map Prod.snd (async_turn_on_D s tr (some "Favourite"))
      = Except.ok [⟨"set_mode", .scalar (.pyStr "favourite")⟩]
    ∧ Except.map Prod.snd (async_turn_on_Device s tr (some "Favourite"))
      = Except.ok [⟨"set_mode", .scalar (.pyStr "favourite")⟩] := by
  have ht : strTitle "Favourite" = "Favourite" := by decide
  have hg : ¬(supported_features &&& SUPPORT_SET_SPEED = 0) := by decide
  have hz : ¬(SUPPORT_SET_SPEED = 0) := by decide
  constructor <;>
    simp [async_turn_on_D, async_turn_on_Device, async_set_speed_D,
      async_set_speed_Device, ht, hg, hz, OperationMode.ofName,
      OperationMode.value, send_raw_cmd, Except.map]

/-- C7: a set_speed whose title-cased argument is "Off" is routed through
turn-off in both variants: the call equals the corresponding async_turn_off,
and the single wire command issued is set_power([False]) — no set_mode. -/
theorem set_speed_off_routes_turn_off (s : DeviceState) (tr : Transport)
    (sp : String) (h : strTitle sp = "Off") :
    async_set_speed_D s tr sp = Except.ok (async_turn_off_D s tr)
    ∧ (async_turn_off_D s tr).2 = [⟨"set_power", .list [.pyBool false]⟩]
    ∧ async_set_speed_Device s tr sp = Except.ok (async_turn_off_Device s tr)
    ∧ (async_turn_off_Device s tr).2
        = [⟨"set_power", .list [.pyBool false]⟩] := by
  have hg : ¬(supported_features &&& SUPPORT_SET_SPEED = 0) := by decide
  have hz : ¬(SUPPORT_SET_SPEED = 0) := by decide
  refine ⟨?_, ?_, ?_, ?_⟩ <;>
    simp [async_set_speed_D, async_set_speed_Device, async_turn_off_D,
      async_turn_off_Device, h, hg, hz, OperationMode.ofName,
      OperationMode.value, send_raw_cmd]

/-- Witness for set_speed_off_routes_turn_off with the mixed-case speed "oFF"
and a transport that accepts the command. -/
theorem set_speed_off_routes_turn_off_witness :
    async_set_speed_D ⟨true, some true, [], false⟩
        (fun _ _ => SendResult.ok SUCCESS) "oFF"
      = Except.ok (async_turn_off_D ⟨true, some true, [], false⟩
          (fun _ _ => SendResult.ok SUCCESS))
    ∧ (async_turn_off_D ⟨true, some true, [], false⟩
        (fun _ _ => SendResult.ok SUCCESS)).2
        = [⟨"set_power", .list [.pyBool false]⟩]
    ∧ async_set_speed_Device ⟨true, some true, [], false⟩
        (fun _ _ => SendResult.ok SUCCESS) "oFF"
      = Except.ok (async_turn_off_Device ⟨true, some true, [], false⟩
          (fun _ _ => SendResult.ok SUCCESS))
    ∧ (async_turn_off_Device ⟨true, some true, [], false⟩
        (fun _ _ => SendResult.ok SUCCESS)).2
        = [⟨"set_power", .list [.pyBool false]⟩] :=
  set_speed_off_routes_turn_off ⟨true, some true, [], false⟩
    (fun _ _ => SendResult.ok SUCCESS) "oFF" (by decide)

/-- C5 counterexample: in the XiaomiAirFreshDevice variant a turn-on command
that succeeds (transport replies ["ok"]) leaves the optimistic power state and
the skip-next-poll flag exactly as before — the claim that every successful
turn-on sets them is false on this cited code. -/
theorem turn_on_Device_no_optimistic :
    async_turn_on_Device ⟨false, none, [], false⟩
        (fun _ _ => SendResult.ok SUCCESS) none
      = Except.ok (⟨false, none, [], false⟩,
          [⟨"set_power", .list [.pyBool true]⟩])
    ∧ (⟨false, none, [], false⟩ : DeviceState).skip_update = false
    ∧ (⟨false, none, [], false⟩ : DeviceState).state = none := by
  refine ⟨by rfl, rfl, rfl⟩

/-- C5 amended: in the XiaomiAirFreshD variant, a successful speed-less
turn-on (turn-off) sets the optimistic power state to true (false) and arms
the one-shot skip flag; the immediately following async_update, seeing the
armed flag, only clears it and leaves availability, power state and attributes
untouched; an unsuccessful command sets neither the state nor the flag (a
transport exception additionally clears availability); and the
XiaomiAirFreshDevice turn-on never changes the power state or the flag. -/
theorem turn_on_off_optimistic_D (s : DeviceState) (tr : Transport) :
    (tr "set_power" (.list [.pyBool true]) = SendResult.ok SUCCESS →
      async_turn_on_D s tr none
        = Except.ok ({ s with state := some true, skip_update := true },
            [⟨"set_power", .list [.pyBool true]⟩]))
    ∧ (tr "set_power" (.list [.pyBool false]) = SendResult.ok SUCCESS →
      async_turn_off_D s tr
        = ({ s with state := some false, skip_update := true },
           [⟨"set_power", .list [.pyBool false]⟩]))
    ∧ (s.skip_update = true →
      ∀ send props attrs, async_update send props attrs s
        = UpdateOutcome.normal { s with skip_update := false })
    ∧ (∀ v, tr "set_power" (.list [.pyBool true]) = SendResult.ok v →
      v ≠ SUCCESS →
      async_turn_on_D s tr none
        = Except.ok (s, [⟨"set_power", .list [.pyBool true]⟩]))
    ∧ (∀ e, tr "set_power" (.list [.pyBool true]) = SendResult.exn e →
      async_turn_on_D s tr none
        = Except.ok ({ s with available := false },
            [⟨"set_power", .list [.pyBool true]⟩]))
    ∧ (∀ tr2 : Transport,
      Except.map (fun p => (p.1.state, p.1.skip_update))
          (async_turn_on_Device s tr2 none)
        = Except.ok (s.state, s.skip_update)) := by
  refine ⟨fun h => ?_, fun h => ?_, fun h send props attrs => ?_,
    fun v hv hne => ?_, fun e he => ?_, fun tr2 => ?_⟩
  · simp [async_turn_on_D, turn_on_power_D, send_raw_cmd, try_command, h]
  · simp [async_turn_off_D, send_raw_cmd, try_command, h]
  · simp [async_update, h]
  · simp [async_turn_on_D, turn_on_power_D, send_raw_cmd, try_command, hv, hne]
  · simp [async_turn_on_D, turn_on_power_D, send_raw_cmd, try_command, he]
  · cases h2 : tr2 "set_power" (.list [.pyBool true]) <;>
      simp [async_turn_on_Device, turn_on_power_Device, send_raw_cmd,
        try_command, h2, Except.map]

/-- Witness for turn_on_off_optimistic_D: a successful turn-on at a concrete
state arms the skip flag and sets the optimistic state. -/
theorem turn_on_off_optimistic_D_witness :
    async_turn_on_D ⟨true, none, [], false⟩
        (fun _ _ => SendResult.ok SUCCESS) none
      = Except.ok (⟨true, some true, [], true⟩,
          [⟨"set_power", .list [.pyBool true]⟩]) :=
  (turn_on_off_optimistic_D ⟨true, none, [], false⟩
    (fun _ _ => SendResult.ok SUCCESS)).1 rfl

theorem dictGetD_of_no_binding (d : List (String × PropValue)) (k : String)
    (h : ∀ p ∈ d, p.1 ≠ k) : dictGetD d k = .pyNone := by
  have hf : d.reverse.find? (fun p => p.1 = k) = none := by
    rw [List.find?_eq_none]
    intro p hp
    simpa using h p (List.mem_reverse.mp hp)
  simp [dictGetD, hf]

/-- C8 counterexample: building a snapshot from the 4-name list with a 1-value
reply (count mismatch) succeeds, plain properties of the missing tail read as
None, but the mode property raises ValueError instead of returning null. -/
theorem snapshot_short_zip_mode_raises :
    get_status (fun _ => Except.ok [.pyBool true]) properties_d
      = Except.ok ⟨[("power", .pyBool true)]⟩
    ∧ (AirFreshDeviceStatus.mk [("power", .pyBool true)]).get "pm25"
      = PropValue.pyNone
    ∧ (AirFreshDeviceStatus.mk [("power", .pyBool true)]).mode
      = Except.error "ValueError" := by
  refine ⟨by rfl, by decide, by rfl⟩

/-- C8 amended: in a snapshot zipped from a value list shorter than the name
list, every name outside the zipped prefix reads as None through the plain
data-backed properties, and processing of those properties continues; but the
mode property feeds the raw value to the OperationMode constructor, so a
missing (None) mode value raises ValueError instead of reading as null. -/
theorem snapshot_default_none_but_mode_raises (props : List String)
    (values : List PropValue) (k : String)
    (hk : ∀ p ∈ List.zip props values, p.1 ≠ k) :
    (AirFreshDeviceStatus.mk (List.zip props values)).get k = PropValue.pyNone
    ∧ ∀ st : AirFreshDeviceStatus, st.get "mode" = PropValue.pyNone →
        st.mode = Except.error "ValueError" := by
  constructor
  · exact dictGetD_of_no_binding _ k hk
  · intro st h
    simp [AirFreshDeviceStatus.mode, h]

/-- Witness for snapshot_default_none_but_mode_raises on the 4-name list
zipped with a single value, at the dropped trailing name mode. -/
theorem snapshot_default_none_but_mode_raises_witness :
    (∀ p ∈ List.zip properties_d [PropValue.pyBool true], p.1 ≠ "mode")
    ∧ ((AirFreshDeviceStatus.mk
          (List.zip properties_d [PropValue.pyBool true])).get "mode"
        = PropValue.pyNone
      ∧ ∀ st : AirFreshDeviceStatus, st.get "mode" = PropValue.pyNone →
          st.mode = Except.error "ValueError") :=
  ⟨by decide, snapshot_default_none_but_mode_raises properties_d
    [PropValue.pyBool true] "mode" (by decide)⟩

theorem try_command_avail_mono (mask : String) (s : DeviceState)
    (tr : Transport) (method : String) (params : PyValue) :
    (try_command mask s tr method params).1.available = true →
      s.available = true := by
  cases h : tr method params <;> simp [try_command, h]

theorem turn_off_D_avail_mono (s : DeviceState) (tr : Transport) :
    (async_turn_off_D s tr).1.available = true → s.available = true := by
  cases h : tr "set_power" (.list [.pyBool false]) <;>
    simp [async_turn_off_D, send_raw_cmd, try_command, h, apply_ite]

theorem turn_on_power_D_avail_mono (s : DeviceState) (tr : Transport) :
    (turn_on_power_D s tr).1.available = true → s.available = true := by
  cases h : tr "set_power" (.list [.pyBool true]) <;>
    simp [turn_on_power_D, send_raw_cmd, try_command, h, apply_ite]

theorem set_speed_D_avail_mono (s : DeviceState) (tr : Transport)
    (sp : String) (r : DeviceState × List WireCmd)
    (h : async_set_speed_D s tr sp = Except.ok r) :
    r.1.available = true → s.available = true := by
  have hg : ¬(supported_features &&& SUPPORT_SET_SPEED = 0) := by decide
  rcases hm : OperationMode.ofName (strTitle sp) with _ | m
  · simp [async_set_speed_D, hg, hm] at h
  · by_cases hv : m.value = "off"
    · simp [async_set_speed_D, hg, hm, hv] at h
      subst h
      exact turn_off_D_avail_mono s tr
    · simp [async_set_speed_D, hg, hm, hv] at h
      subst h
      exact try_command_avail_mono _ s tr _ _

theorem turn_on_D_avail_mono (s : DeviceState) (tr : Transport)
    (speed : Option String) (r : DeviceState × List WireCmd)
    (h : async_turn_on_D s tr speed = Except.ok r) :
    r.1.available = true → s.available = true := by
  rcases speed with _ | sp
  · simp [async_turn_on_D] at h
    subst h
    exact turn_on_power_D_avail_mono s tr
  · by_cases he : sp = ""
    · simp [async_turn_on_D, he] at h
      subst h
      exact turn_on_power_D_avail_mono s tr
    · simp [async_turn_on_D, he] at h
      exact set_speed_D_avail_mono s tr sp r h

theorem turn_off_Device_avail_mono (s : DeviceState) (tr : Transport) :
    (async_turn_off_Device s tr).1.available = true → s.available = true := by
  cases h : tr "set_power" (.list [.pyBool false]) <;>
    simp [async_turn_off_Device, send_raw_cmd, try_command, h]

theorem turn_on_power_Device_avail_mono (s : DeviceState) (tr : Transport) :
    (turn_on_power_Device s tr).1.available = true → s.available = true := by
  cases h : tr "set_power" (.list [.pyBool true]) <;>
    simp [turn_on_power_Device, send_raw_cmd, try_command, h]

theorem set_speed_Device_avail_mono (s : DeviceState) (tr : Transport)
    (sp : String) (r : DeviceState × List WireCmd)
    (h : async_set_speed_Device s tr sp = Except.ok r) :
    r.1.available = true → s.available = true := by
  have hz : ¬(SUPPORT_SET_SPEED = 0) := by decide
  rcases hm : OperationMode.ofName (strTitle sp) with _ | m
  · simp [async_set_speed_Device, hz, hm] at h
  · by_cases hv : m.value = "off"
    · simp [async_set_speed_Device, hz, hm, hv] at h
      subst h
      exact turn_off_Device_avail_mono s tr
    · simp [async_set_speed_Device, hz, hm, hv] at h
      subst h
      exact try_command_avail_mono _ s tr _ _

theorem turn_on_Device_avail_mono (s : DeviceState) (tr : Transport)
    (speed : Option String) (r : DeviceState × List WireCmd)
    (h : async_turn_on_Device s tr speed = Except.ok r) :
    r.1.available = true → s.available = true := by
  rcases speed with _ | sp
  · simp [async_turn_on_Device] at h
    subst h
    exact turn_on_power_Device_avail_mono s tr
  · by_cases he : sp = ""
    · simp [async_turn_on_Device, he] at h
      subst h
      exact turn_on_power_Device_avail_mono s tr
    · simp [async_turn_on_Device, he] at h
      exact set_speed_Device_avail_mono s tr sp r h

/-- C9: a command whose transport raises leaves availability false; no command
operation (the dispatcher _try_command or any turn-on / turn-off / set-speed
entry point of either variant) can turn availability from false to true; an
async_update reporting availability true either started available or had a
successful get_status poll; and a successful poll (skip flag clear,
get_status ok) does set availability to true. -/
theorem availability_restored_only_by_poll (mask : String) (s : DeviceState)
    (tr : Transport) (method : String) (params : PyValue)
    (send : List String → Except String (List PropValue))
    (props : List String) (attrs : List (String × String)) :
    (∀ e, tr method params = SendResult.exn e →
      (try_command mask s tr method params).1.available = false)
    ∧ ((try_command mask s tr method params).1.available = true →
        s.available = true)
    ∧ ((async_turn_off_D s tr).1.available = true → s.available = true)
    ∧ (∀ speed r, async_turn_on_D s tr speed = Except.ok r →
        r.1.available = true → s.available = true)
    ∧ (∀ sp r, async_set_speed_D s tr sp = Except.ok r →
        r.1.available = true → s.available = true)
    ∧ ((async_turn_off_Device s tr).1.available = true → s.available = true)
    ∧ (∀ speed r, async_turn_on_Device s tr speed = Except.ok r →
        r.1.available = true → s.available = true)
    ∧ (∀ sp r, async_set_speed_Device s tr sp = Except.ok r →
        r.1.available = true → s.available = true)
    ∧ ((async_update send props attrs s).state.available = true →
        s.available = true ∨ ∃ st, get_status send props = Except.ok st)
    ∧ (s.skip_update = false → ∀ st, get_status send props = Except.ok st →
        (async_update send props attrs s).state.available = true) := by
  refine ⟨fun e he => by simp [try_command, he],
    try_command_avail_mono mask s tr method params,
    turn_off_D_avail_mono s tr,
    fun speed r h => turn_on_D_avail_mono s tr speed r h,
    fun sp r h => set_speed_D_avail_mono s tr sp r h,
    turn_off_Device_avail_mono s tr,
    fun speed r h => turn_on_Device_avail_mono s tr speed r h,
    fun sp r h => set_speed_Device_avail_mono s tr sp r h,
    ?_, ?_⟩
  · by_cases hskip : s.skip_update
    · simp [async_update, hskip, UpdateOutcome.state]
      intro h
      exact Or.inl h
    · cases hst : get_status send props with
      | error e => simp [async_update, hskip, hst, UpdateOutcome.state]
      | ok st =>
        intro _
        exact Or.inr ⟨st, rfl⟩
  · intro hskip st hst
    cases hx : extractAll st attrs <;>
      simp [async_update, hskip, hst, hx, UpdateOutcome.state]

/-- Witness for availability_restored_only_by_poll: a failed concrete command
leaves availability false. -/
theorem availability_restored_only_by_poll_witness :
    (try_command "m" ⟨true, some true, [], false⟩
        (fun _ _ => SendResult.exn "timeout") "set_power"
        (.list [.pyBool true])).1.available = false :=
  (availability_restored_only_by_poll "m" ⟨true, some true, [], false⟩
    (fun _ _ => SendResult.exn "timeout") "set_power" (.list [.pyBool true])
    (fun _ => Except.error "e") properties_d AVAILABLE_ATTRIBUTES_D).1
    "timeout" rfl
